import Mathlib

/-!
Shallow embedding of the IAA compressor plugin for RocksDB
(src/iaa_compressor.cc): length framing (EncodeSize / DecodeSize over the
RocksDB varint32 coding), worst-case output sizing in Compress, the
thread-local per-execution-path job caches, the busy-retry execute loop, and
the status mapping of Compress and Uncompress.

Bytes are modelled as natural numbers below 256 and byte buffers as lists of
naturals; `size_t` arithmetic is modelled as natural-number arithmetic reduced
modulo `2 ^ 64` where the source can overflow, and the implicit `size_t` to
`uint32_t` conversion as reduction modulo `2 ^ 32`.  The QPL backend and the
RocksDB memory allocator are external collaborators; one call's interaction
with them is modelled by an oracle recording the statuses the backend would
return and the allocator's behaviour.
-/

namespace IAAPlugin

def UINT32_MAX : Nat := 2 ^ 32 - 1

def SIZE_T_MOD : Nat := 2 ^ 64

/-- Modelled from the spec: `PutVarint32` (RocksDB `util/coding`, not among
the plugin's source files) appends the base-128 little-endian varint of a
`uint32_t`: 7 payload bits per byte, continuation (high) bit set on every
byte but the last.  The source loop runs at most 5 times for a 32-bit value,
so a fuel of 5 makes the recursion structural; the fuel-exhausted branch is
unreachable for values below `2 ^ 32`. -/
def putVarint32Aux : Nat → Nat → List Nat
  | 0, v => [v]
  | fuel + 1, v =>
    if v < 128 then [v] else (v % 128 + 128) :: putVarint32Aux fuel (v / 128)

def PutVarint32 (v : Nat) : List Nat := putVarint32Aux 5 v

/-- `EncodeSize` (src/iaa_compressor.cc:267-270): appends the varint32 of the
input length to the (initially empty) output.  The `size_t` length is
converted to `uint32_t` at the call to `PutVarint32`, hence the reduction
modulo `2 ^ 32`.  The source returns `output->size()`; with an initially
empty output that is the length of the byte list returned here. -/
def EncodeSize (length : Nat) : List Nat := PutVarint32 (length % 2 ^ 32)

/-- Modelled from the spec: the decoding loop of `GetVarint32Ptr` (RocksDB
`util/coding`, not among the plugin's source files) — reads bytes little
endian, 7 payload bits each, stops at the first byte without the continuation
bit, and fails when the buffer is empty or ends mid-varint.  Accumulates the
decoded value and the number of bytes consumed. -/
def GetVarint32Loop : List Nat → Nat → Nat → Nat → Option (Nat × Nat)
  | [], _, _, _ => none
  | byt :: rest, shift, acc, consumed =>
    if byt < 128 then some (acc + byt * 2 ^ shift, consumed + 1)
    else GetVarint32Loop rest (shift + 7) (acc + byt % 128 * 2 ^ shift) (consumed + 1)

/-- `DecodeSize` (src/iaa_compressor.cc:272-282): decodes the varint32 at the
head of the input.  On success the source advances the input pointer past the
varint and shrinks the remaining length by the bytes consumed, modelled by
returning the decoded value together with the number of bytes consumed; the
source's `false` return becomes `none`. -/
def DecodeSize (input : List Nat) : Option (Nat × Nat) := GetVarint32Loop input 0 0 0

/-- QPL status codes, as far as the plugin distinguishes them: `QPL_STS_OK`,
the transient busy signal `QPL_STS_QUEUES_ARE_BUSY_ERR`, and every other
numeric status code. -/
inductive QplStatus where
  | QPL_STS_OK
  | QPL_STS_QUEUES_ARE_BUSY_ERR
  | errCode (code : Nat)
deriving DecidableEq, Repr

/-- The distinct `Status::Corruption` messages produced by
src/iaa_compressor.cc: `MEMORY_ALLOCATION_ERROR`, `QPL_STATUS(status)` (which
embeds the raw backend status code in the message), "size decoding error" and
"size mismatch". -/
inductive CorruptionMsg where
  | memoryAllocationError
  | qplStatusMsg (s : QplStatus)
  | sizeDecodingError
  | sizeMismatch
deriving DecidableEq, Repr

/-- The RocksDB `Status` values the plugin returns: `Status::OK()` or
`Status::Corruption(msg)`. -/
inductive RStatus where
  | OK
  | Corruption (m : CorruptionMsg)
deriving DecidableEq, Repr

/-- The three QPL execution paths (src/iaa_compressor.cc:41-44). -/
inductive QplPath where
  | qpl_path_auto
  | qpl_path_hardware
  | qpl_path_software
deriving DecidableEq, Repr

/-- The execute loop shared by Compress (src/iaa_compressor.cc:171-174) and
Uncompress (242-245): `status = QPL_STS_QUEUES_ARE_BUSY_ERR; while (status ==
QPL_STS_QUEUES_ARE_BUSY_ERR) status = qpl_execute_job(job);`.  Given the
statuses that successive `qpl_execute_job` calls return, this yields the
first non-busy one; `none` models a loop that never exits within the
recorded statuses. -/
def firstNonBusy : List QplStatus → Option QplStatus
  | [] => none
  | s :: rest =>
    if s = .QPL_STS_QUEUES_ARE_BUSY_ERR then firstNonBusy rest else some s

/-- One call's view of the QPL backend: the status `qpl_get_job_size` would
return, whether allocating the job buffer (`std::make_unique<char[]>`)
succeeds, the status `qpl_init_job` would return, the statuses successive
`qpl_execute_job` calls return, and the `job->total_out` value observed once
the execute loop ends. -/
structure QplBackend where
  getJobSizeStatus : QplStatus
  allocJobOk : Bool
  initJobStatus : QplStatus
  execStatuses : List QplStatus
  totalOut : Nat

/-- The two `thread_local` job caches (src/iaa_compressor.cc:263-264 and
297-300), one slot per execution path, every slot initially null.  A slot
holding `none` is a null entry; `some b` is an allocated job buffer, where
the ghost flag `b` records whether `qpl_init_job` succeeded on that buffer
(the source stores only the buffer pointer and does not record this). -/
structure ThreadJobState where
  deflate_job_ : QplPath → Option Bool
  inflate_job_ : QplPath → Option Bool

/-- The value of both caches at thread start (src/iaa_compressor.cc:297-300):
three null entries each. -/
def initialThreadJobState : ThreadJobState := ⟨fun _ => none, fun _ => none⟩

/-- Outcome of the job-acquisition block shared by Compress
(src/iaa_compressor.cc:129-147) and Uncompress (207-227): an optional early
`Corruption` message, the cache slot after the block, whether a job is in
hand for execution (with its ghost initialization flag), and which backend
entry points were invoked. -/
structure JobPhaseOutcome where
  err : Option CorruptionMsg
  slot : Option Bool
  jobInit : Option Bool
  calledGetSize : Bool
  calledInit : Bool
deriving DecidableEq, Repr

/-- The job-acquisition block itself.  When the slot is non-null the cached
job is reused with no backend calls.  When it is null: `qpl_get_job_size`
(failure returns `Corruption(QPL_STATUS(status))`, slot stays null), then the
buffer allocation (failure returns `Corruption(MEMORY_ALLOCATION_ERROR)`,
slot stays null), then — after the slot has already been assigned the new
buffer — `qpl_init_job` (failure returns `Corruption(QPL_STATUS(status))`
while the slot keeps the never-initialized buffer). -/
def jobPhase (slot0 : Option Bool) (b : QplBackend) : JobPhaseOutcome :=
  match slot0 with
  | some j => ⟨none, some j, some j, false, false⟩
  | none =>
    if b.getJobSizeStatus ≠ .QPL_STS_OK then
      ⟨some (.qplStatusMsg b.getJobSizeStatus), none, none, true, false⟩
    else if b.allocJobOk = false then
      ⟨some .memoryAllocationError, none, none, true, false⟩
    else if b.initJobStatus ≠ .QPL_STS_OK then
      ⟨some (.qplStatusMsg b.initJobStatus), some false, none, true, true⟩
    else
      ⟨none, some true, some true, true, true⟩

/-- Worst-case output sizing in Compress (src/iaa_compressor.cc:113-121):
`output_header_length + input_length + (input_length / 65535 +
(input_length % 65535 != 0)) * 5`, computed in `size_t`, then clamped to
`std::numeric_limits<uint32_t>::max()` when larger. -/
def compressOutputLength (h n : Nat) : Nat :=
  if (h + n + (n / 65535 + if n % 65535 ≠ 0 then 1 else 0) * 5) % SIZE_T_MOD > UINT32_MAX
  then UINT32_MAX
  else (h + n + (n / 65535 + if n % 65535 ≠ 0 then 1 else 0) * 5) % SIZE_T_MOD

/-- Observables of one `IAACompressor::Compress` call: the returned status
(`none` models a call that never returns because the execute loop never sees
a non-busy status), the thread's job caches after the call, the varint
header bytes written at the front of the output, the capacity the output was
resized to before execution (line 122), the output size after the final
resize on success (line 179), whether `qpl_get_job_size` / `qpl_init_job`
were invoked, and — when execution was reached — the ghost initialization
flag of the job it ran on. -/
structure CompressCallResult where
  status : Option RStatus
  state : ThreadJobState
  outputHeader : List Nat
  outputCapacity : Nat
  finalOutputSize : Option Nat
  called_qpl_get_job_size : Bool
  called_qpl_init_job : Bool
  execJobInitialized : Option Bool

/-- `IAACompressor::Compress` (src/iaa_compressor.cc:105-184) on an input of
length `n`, with the thread's caches `st`, backend oracle `b` and configured
execution path `p`: encode the length header, resize the output to the
worst-case capacity, acquire the deflate job for `p` (early-returning the
job-phase error if any), run the execute loop, map a non-OK status to
`Corruption(QPL_STATUS(status))`, and on success truncate the output to
`output_header_length + job->total_out`. -/
def IAACompressor_Compress (st : ThreadJobState) (b : QplBackend) (p : QplPath)
    (n : Nat) : CompressCallResult :=
  let header := EncodeSize n
  let h := header.length
  let output_length := compressOutputLength h n
  let jp := jobPhase (st.deflate_job_ p) b
  let execStatus := firstNonBusy b.execStatuses
  { status :=
      match jp.err with
      | some m => some (.Corruption m)
      | none =>
        match execStatus with
        | none => none
        | some s =>
          if s ≠ .QPL_STS_OK then some (.Corruption (.qplStatusMsg s)) else some .OK,
    state := { st with deflate_job_ := fun q => if q = p then jp.slot else st.deflate_job_ q },
    outputHeader := header,
    outputCapacity := output_length,
    finalOutputSize :=
      match jp.err, execStatus with
      | none, some s => if s ≠ .QPL_STS_OK then none else some (h + b.totalOut)
      | _, _ => none,
    called_qpl_get_job_size := jp.calledGetSize,
    called_qpl_init_job := jp.calledInit,
    execJobInitialized :=
      match jp.err with
      | none => jp.jobInit
      | some _ => none }

/-- The three behaviours of the supplied memory allocator in
`IAACompressor::Uncompress` (src/iaa_compressor.cc:195-203): raise
`std::bad_alloc`, return a null pointer, or return a buffer. -/
inductive AllocOutcome where
  | throwsBadAlloc
  | returnsNull
  | returnsBuffer
deriving DecidableEq, Repr

/-- Observables of one `IAACompressor::Uncompress` call: the returned status
(`none` models the execute loop never seeing a non-busy status), the
thread's job caches after the call, the size decoded from the length header,
whether the allocator was invoked, whether `*output` was assigned the
allocated (non-null) buffer, whether the core freed that buffer (the source
contains no deallocation call, so the embedding never sets this), the value
assigned to `*output_length`, whether `qpl_get_job_size` / `qpl_init_job`
were invoked, and — when execution was reached — the ghost initialization
flag of the job it ran on. -/
structure UncompressCallResult where
  status : Option RStatus
  state : ThreadJobState
  decodedSize : Option Nat
  allocCalled : Bool
  outputPtrSet : Bool
  freeCalled : Bool
  output_length : Option Nat
  called_qpl_get_job_size : Bool
  called_qpl_init_job : Bool
  execJobInitialized : Option Bool

/-- `IAACompressor::Uncompress` (src/iaa_compressor.cc:186-257) on a framed
input, with the thread's caches `st`, backend oracle `b`, allocator
behaviour `a` and configured execution path `p`: decode the length header
(failure: `Corruption("size decoding error")`, before any allocation);
allocate the output buffer (null return or `std::bad_alloc`:
`Corruption(MEMORY_ALLOCATION_ERROR)`); acquire the inflate job for `p`;
run the execute loop; map a non-OK status to `Corruption(QPL_STATUS(status))`;
on OK compare `job->total_out` with the decoded size (mismatch:
`Corruption("size mismatch")`); on full success set `*output_length`. -/
def IAACompressor_Uncompress (st : ThreadJobState) (b : QplBackend)
    (a : AllocOutcome) (p : QplPath) (input : List Nat) : UncompressCallResult :=
  match DecodeSize input with
  | none =>
    { status := some (.Corruption .sizeDecodingError), state := st,
      decodedSize := none, allocCalled := false, outputPtrSet := false,
      freeCalled := false, output_length := none,
      called_qpl_get_job_size := false, called_qpl_init_job := false,
      execJobInitialized := none }
  | some (encoded_output_length, _consumed) =>
    match a with
    | .throwsBadAlloc =>
      { status := some (.Corruption .memoryAllocationError), state := st,
        decodedSize := some encoded_output_length, allocCalled := true,
        outputPtrSet := false, freeCalled := false, output_length := none,
        called_qpl_get_job_size := false, called_qpl_init_job := false,
        execJobInitialized := none }
    | .returnsNull =>
      { status := some (.Corruption .memoryAllocationError), state := st,
        decodedSize := some encoded_output_length, allocCalled := true,
        outputPtrSet := false, freeCalled := false, output_length := none,
        called_qpl_get_job_size := false, called_qpl_init_job := false,
        execJobInitialized := none }
    | .returnsBuffer =>
      let jp := jobPhase (st.inflate_job_ p) b
      let execStatus := firstNonBusy b.execStatuses
      { status :=
          match jp.err with
          | some m => some (.Corruption m)
          | none =>
            match execStatus with
            | none => none
            | some s =>
              if s ≠ .QPL_STS_OK then some (.Corruption (.qplStatusMsg s))
              else if b.totalOut ≠ encoded_output_length then
                some (.Corruption .sizeMismatch)
              else some .OK,
        state := { st with inflate_job_ := fun q => if q = p then jp.slot else st.inflate_job_ q },
        decodedSize := some encoded_output_length,
        allocCalled := true,
        outputPtrSet := true,
        freeCalled := false,
        output_length :=
          match jp.err, execStatus with
          | none, some s =>
            if s ≠ .QPL_STS_OK then none
            else if b.totalOut ≠ encoded_output_length then none
            else some b.totalOut
          | _, _ => none,
        called_qpl_get_job_size := jp.calledGetSize,
        called_qpl_init_job := jp.calledInit,
        execJobInitialized :=
          match jp.err with
          | none => jp.jobInit
          | some _ => none }

/-- A concrete thread state whose slots all hold an initialized job, used to
exercise the cached-context paths on concrete inputs. -/
def warmThreadJobState : ThreadJobState := ⟨fun _ => some true, fun _ => some true⟩

/-- A concrete backend oracle whose sizing, allocation and initialization all
succeed, with the given execute statuses and `total_out`. -/
def demoBackend (l : List QplStatus) (t : Nat) : QplBackend :=
  ⟨.QPL_STS_OK, true, .QPL_STS_OK, l, t⟩

/-- A concrete backend oracle whose `qpl_init_job` fails with the given code
while sizing and allocation succeed. -/
def demoInitFailBackend (c : Nat) (l : List QplStatus) (t : Nat) : QplBackend :=
  ⟨.QPL_STS_OK, true, .errCode c, l, t⟩

/-- Decoding starts back from an encoding: the varint loop consumes exactly
the bytes `putVarint32Aux` produced, recovering the encoded value at the
current shift and accumulating on top of any already-decoded payload. -/
theorem getVarint32Loop_putVarint32Aux (fuel : Nat) :
    ∀ v rest shift acc consumed, v < 128 ^ fuel →
      GetVarint32Loop (putVarint32Aux fuel v ++ rest) shift acc consumed
        = some (acc + v * 2 ^ shift, consumed + (putVarint32Aux fuel v).length) := by
  induction fuel with
  | zero =>
    intro v rest shift acc consumed hv
    have hv0 : v = 0 := by omega
    subst hv0
    simp [putVarint32Aux, GetVarint32Loop]
  | succ fuel ih =>
    intro v rest shift acc consumed hv
    by_cases h128 : v < 128
    · simp [putVarint32Aux, GetVarint32Loop, h128]
    · have hdiv : v / 128 < 128 ^ fuel := by
        rw [Nat.div_lt_iff_lt_mul (by norm_num)]
        calc v < 128 ^ (fuel + 1) := hv
          _ = 128 ^ fuel * 128 := by ring
      have hb : ¬ (v % 128 + 128 < 128) := by omega
      simp only [putVarint32Aux, if_neg h128, List.cons_append, GetVarint32Loop,
        if_neg hb, List.length_cons]
      rw [ih (v / 128) rest (shift + 7) _ _ hdiv]
      have hm : (v % 128 + 128) % 128 = v % 128 := by omega
      have hp : (2 : Nat) ^ (shift + 7) = 2 ^ shift * 128 := by
        rw [pow_add]; norm_num
      have hsplit : acc + (v % 128 + 128) % 128 * 2 ^ shift + v / 128 * 2 ^ (shift + 7)
          = acc + v * 2 ^ shift := by
        rw [hm, hp]
        conv_rhs => rw [← Nat.mod_add_div v 128]
        ring
      rw [hsplit]
      simp only [Option.some.injEq, Prod.mk.injEq, true_and]
      omega

/-- Claim C1: for every representable length `n` (`0 ≤ n ≤ 2^32 − 1`),
decoding the varint produced by the length framer returns `n` together with
the number of bytes the encoding occupies:
`DecodeSize (EncodeSize n) = some (n, (EncodeSize n).length)`. -/
theorem decodeSize_encodeSize_roundtrip (n : Nat) (hn : n ≤ 2 ^ 32 - 1) :
    DecodeSize (EncodeSize n) = some (n, (EncodeSize n).length) := by
  have hn' : n < 2 ^ 32 := by omega
  have hmod : n % 2 ^ 32 = n := Nat.mod_eq_of_lt hn'
  have hpow : (2 : Nat) ^ 32 ≤ 128 ^ 5 := by norm_num
  have h5 : n < 128 ^ 5 := by omega
  unfold DecodeSize EncodeSize PutVarint32
  rw [hmod]
  have h := getVarint32Loop_putVarint32Aux 5 n [] 0 0 0 h5
  simpa [PutVarint32] using h

/-- Witness for C1 at the maximum representable length `2^32 − 1`. -/
theorem decodeSize_encodeSize_roundtrip_witness :
    4294967295 ≤ 2 ^ 32 - 1 ∧
      DecodeSize (EncodeSize 4294967295) = some (4294967295, (EncodeSize 4294967295).length) :=
  ⟨by norm_num, decodeSize_encodeSize_roundtrip 4294967295 (by norm_num)⟩

/-- The sizing expression equals `min (h + n + 5 * ceil(n / 65535)) (2^32 − 1)`
whenever the `size_t` computation does not wrap. -/
theorem compressOutputLength_eq_min (h n : Nat)
    (hfit : h + n + 5 * ((n + 65534) / 65535) < 2 ^ 64) :
    compressOutputLength h n = min (h + n + 5 * ((n + 65534) / 65535)) (2 ^ 32 - 1) := by
  unfold compressOutputLength UINT32_MAX SIZE_T_MOD
  have hceil : n / 65535 + (if n % 65535 ≠ 0 then 1 else 0) = (n + 65534) / 65535 := by
    split <;> omega
  rw [hceil]
  have hmod : (h + n + (n + 65534) / 65535 * 5) % 2 ^ 64
      = h + n + (n + 65534) / 65535 * 5 :=
    Nat.mod_eq_of_lt (by omega)
  rw [hmod]
  have hXY : h + n + (n + 65534) / 65535 * 5 = h + n + 5 * ((n + 65534) / 65535) := by ring
  rw [hXY]
  rcases le_or_lt (h + n + 5 * ((n + 65534) / 65535)) (2 ^ 32 - 1) with hle | hgt
  · rw [if_neg (by omega), min_eq_left hle]
  · rw [if_pos (by omega), min_eq_right (by omega)]

/-- Claim C2: for every input block of length `n` compressed with a varint
header of length `h = (EncodeSize n).length`, Compress resizes the output
buffer before execution to exactly `h + n + 5 * ceil(n / 65535)` bytes,
clamped to `2^32 − 1` when the computed value exceeds it (no separate error
case).  The hypothesis excludes wrap-around of the `size_t` computation
itself, which cannot occur for any physically possible block. -/
theorem compress_resizes_to_worst_case (st : ThreadJobState) (b : QplBackend)
    (p : QplPath) (n : Nat)
    (hfit : (EncodeSize n).length + n + 5 * ((n + 65534) / 65535) < 2 ^ 64) :
    (IAACompressor_Compress st b p n).outputCapacity
      = min ((EncodeSize n).length + n + 5 * ((n + 65534) / 65535)) (2 ^ 32 - 1) := by
  have hcap : (IAACompressor_Compress st b p n).outputCapacity
      = compressOutputLength (EncodeSize n).length n := rfl
  rw [hcap]
  exact compressOutputLength_eq_min (EncodeSize n).length n hfit

/-- Witness for C2 at `n = 100000` (worst case not clamped) applied with an
all-OK backend on a fresh thread state. -/
theorem compress_resizes_to_worst_case_witness :
    (EncodeSize 100000).length + 100000 + 5 * ((100000 + 65534) / 65535) < 2 ^ 64 ∧
      (IAACompressor_Compress initialThreadJobState
          ⟨.QPL_STS_OK, true, .QPL_STS_OK, [.QPL_STS_OK], 7⟩ .qpl_path_auto 100000).outputCapacity
        = min ((EncodeSize 100000).length + 100000 + 5 * ((100000 + 65534) / 65535)) (2 ^ 32 - 1) :=
  ⟨by decide,
    compress_resizes_to_worst_case initialThreadJobState
      ⟨.QPL_STS_OK, true, .QPL_STS_OK, [.QPL_STS_OK], 7⟩ .qpl_path_auto 100000 (by decide)⟩

/-- The execute loop skips any finite run of busy statuses and stops at the
first non-busy one, whatever follows it. -/
theorem firstNonBusy_replicate (k : Nat) (s : QplStatus) (rest : List QplStatus)
    (hs : s ≠ .QPL_STS_QUEUES_ARE_BUSY_ERR) :
    firstNonBusy (List.replicate k .QPL_STS_QUEUES_ARE_BUSY_ERR ++ s :: rest) = some s := by
  induction k with
  | zero => simp [firstNonBusy, hs]
  | succ k ih => simpa [List.replicate_succ, firstNonBusy] using ih

/-- Claim C3: in both Compress and Uncompress, for every sequence of backend
execute statuses consisting of `k` busy answers followed by a non-busy status
`s`, the busy answers are retried (the outcome depends only on `s`, for every
`k`) and busy is never surfaced as an error; every non-success `s` is
returned as a Corruption result carrying the raw backend status.  The cached
job slots and the successful decode make the execute loop reachable. -/
theorem busy_retried_until_nonbusy_and_errors_surfaced
    (st : ThreadJobState) (b b2 : QplBackend) (p : QplPath) (n : Nat)
    (input : List Nat) (j j2 : Bool) (m c k k2 : Nat) (s s2 : QplStatus)
    (rest rest2 : List QplStatus)
    (hjob : st.deflate_job_ p = some j)
    (hexec : b.execStatuses = List.replicate k .QPL_STS_QUEUES_ARE_BUSY_ERR ++ s :: rest)
    (hs : s ≠ .QPL_STS_QUEUES_ARE_BUSY_ERR)
    (hjob2 : st.inflate_job_ p = some j2)
    (hdec : DecodeSize input = some (m, c))
    (hexec2 : b2.execStatuses = List.replicate k2 .QPL_STS_QUEUES_ARE_BUSY_ERR ++ s2 :: rest2)
    (hs2 : s2 ≠ .QPL_STS_QUEUES_ARE_BUSY_ERR) :
    ((s ≠ .QPL_STS_OK →
        (IAACompressor_Compress st b p n).status = some (.Corruption (.qplStatusMsg s))) ∧
      (s = .QPL_STS_OK → (IAACompressor_Compress st b p n).status = some .OK) ∧
      (IAACompressor_Compress st b p n).status
        ≠ some (.Corruption (.qplStatusMsg .QPL_STS_QUEUES_ARE_BUSY_ERR))) ∧
    ((s2 ≠ .QPL_STS_OK →
        (IAACompressor_Uncompress st b2 .returnsBuffer p input).status
          = some (.Corruption (.qplStatusMsg s2))) ∧
      (IAACompressor_Uncompress st b2 .returnsBuffer p input).status
        ≠ some (.Corruption (.qplStatusMsg .QPL_STS_QUEUES_ARE_BUSY_ERR))) := by
  have hfb : firstNonBusy b.execStatuses = some s := by
    rw [hexec]; exact firstNonBusy_replicate k s rest hs
  have hfb2 : firstNonBusy b2.execStatuses = some s2 := by
    rw [hexec2]; exact firstNonBusy_replicate k2 s2 rest2 hs2
  refine ⟨⟨?_, ?_, ?_⟩, ?_, ?_⟩
  · intro hso
    simp [IAACompressor_Compress, jobPhase, hjob, hfb, hso]
  · intro hso
    simp [IAACompressor_Compress, jobPhase, hjob, hfb, hso]
  · by_cases hso : s = .QPL_STS_OK
    · simp [IAACompressor_Compress, jobPhase, hjob, hfb, hso]
    · simp [IAACompressor_Compress, jobPhase, hjob, hfb, hso]
      intro h
      exact hs h
  · intro hso
    simp only [IAACompressor_Uncompress]
    rw [hdec]
    simp [jobPhase, hjob2, hfb2, hso]
  · simp only [IAACompressor_Uncompress]
    rw [hdec]
    by_cases hso : s2 = .QPL_STS_OK
    · subst hso
      by_cases ht : b2.totalOut = m <;> simp [jobPhase, hjob2, hfb2, ht]
    · simp [jobPhase, hjob2, hfb2, hso]
      intro h
      exact hs2 h

/-- Witness for C3: two busy answers followed by status code 5 surface as
`Corruption(QPL_STATUS(5))` after the retries. -/
theorem busy_retried_until_nonbusy_witness :
    (IAACompressor_Compress warmThreadJobState
        (demoBackend [.QPL_STS_QUEUES_ARE_BUSY_ERR, .QPL_STS_QUEUES_ARE_BUSY_ERR, .errCode 5] 0)
        .qpl_path_auto 5).status
      = some (.Corruption (.qplStatusMsg (.errCode 5))) :=
  (busy_retried_until_nonbusy_and_errors_surfaced warmThreadJobState
      (demoBackend [.QPL_STS_QUEUES_ARE_BUSY_ERR, .QPL_STS_QUEUES_ARE_BUSY_ERR, .errCode 5] 0)
      (demoBackend [.QPL_STS_QUEUES_ARE_BUSY_ERR, .errCode 7] 0)
      .qpl_path_auto 5 [3] true true 3 1 2 1 (.errCode 5) (.errCode 7) [] []
      rfl rfl (by decide) rfl (by decide) rfl (by decide)).1.1 (by decide)

/-- Claim C4: for every input whose length header is empty or truncated
mid-varint, Uncompress fails with `Corruption("size decoding error")` and the
allocator is never invoked. -/
theorem uncompress_framing_failure_no_alloc (st : ThreadJobState) (b : QplBackend)
    (a : AllocOutcome) (p : QplPath) (input : List Nat)
    (hdec : DecodeSize input = none) :
    (IAACompressor_Uncompress st b a p input).status
        = some (.Corruption .sizeDecodingError) ∧
      (IAACompressor_Uncompress st b a p input).allocCalled = false := by
  simp [IAACompressor_Uncompress, hdec]

/-- Witness for C4 at the empty (0-byte) input. -/
theorem uncompress_framing_failure_no_alloc_witness :
    DecodeSize ([] : List Nat) = none ∧
      (IAACompressor_Uncompress warmThreadJobState (demoBackend [] 0) .returnsBuffer
          .qpl_path_auto []).status = some (.Corruption .sizeDecodingError) ∧
      (IAACompressor_Uncompress warmThreadJobState (demoBackend [] 0) .returnsBuffer
          .qpl_path_auto []).allocCalled = false :=
  ⟨rfl, uncompress_framing_failure_no_alloc warmThreadJobState (demoBackend [] 0)
    .returnsBuffer .qpl_path_auto [] rfl⟩

/-- Claim C5: for every framed block whose length header decodes, a
null-returning allocator and a raising allocator both yield
`Corruption(MEMORY_ALLOCATION_ERROR)`, and the externally observed outcome is
identical for the two failure conventions. -/
theorem uncompress_alloc_failure_oom (st : ThreadJobState) (b : QplBackend)
    (p : QplPath) (input : List Nat) (m c : Nat)
    (hdec : DecodeSize input = some (m, c)) :
    (IAACompressor_Uncompress st b .returnsNull p input).status
        = some (.Corruption .memoryAllocationError) ∧
      (IAACompressor_Uncompress st b .throwsBadAlloc p input).status
        = some (.Corruption .memoryAllocationError) ∧
      IAACompressor_Uncompress st b .returnsNull p input
        = IAACompressor_Uncompress st b .throwsBadAlloc p input := by
  simp [IAACompressor_Uncompress, hdec]

/-- Witness for C5 on a one-byte framed header. -/
theorem uncompress_alloc_failure_oom_witness :
    DecodeSize [3] = some (3, 1) ∧
      (IAACompressor_Uncompress warmThreadJobState (demoBackend [] 0) .returnsNull
          .qpl_path_auto [3]).status = some (.Corruption .memoryAllocationError) ∧
      (IAACompressor_Uncompress warmThreadJobState (demoBackend [] 0) .throwsBadAlloc
          .qpl_path_auto [3]).status = some (.Corruption .memoryAllocationError) :=
  ⟨rfl,
    (uncompress_alloc_failure_oom warmThreadJobState (demoBackend [] 0) .qpl_path_auto
      [3] 3 1 rfl).1,
    (uncompress_alloc_failure_oom warmThreadJobState (demoBackend [] 0) .qpl_path_auto
      [3] 3 1 rfl).2.1⟩

/-- Claim C6: for every decompression that reaches execution (hypothesis on
`execJobInitialized`) and whose backend reports success, a written length
`job->total_out` different from the size decoded from the length header
yields `Corruption("size mismatch")` and `*output_length` is not assigned;
when the written length equals the decoded size the call returns OK with that
length assigned to `*output_length`. -/
theorem uncompress_size_mismatch_guard (st : ThreadJobState) (b : QplBackend)
    (p : QplPath) (input : List Nat) (m c : Nat)
    (hdec : DecodeSize input = some (m, c))
    (hreach : (IAACompressor_Uncompress st b .returnsBuffer p input).execJobInitialized.isSome)
    (hexec : firstNonBusy b.execStatuses = some .QPL_STS_OK) :
    (b.totalOut ≠ m →
        (IAACompressor_Uncompress st b .returnsBuffer p input).status
            = some (.Corruption .sizeMismatch) ∧
          (IAACompressor_Uncompress st b .returnsBuffer p input).output_length = none) ∧
      (b.totalOut = m →
        (IAACompressor_Uncompress st b .returnsBuffer p input).status = some .OK ∧
          (IAACompressor_Uncompress st b .returnsBuffer p input).output_length
            = some b.totalOut) := by
  rcases herr : (jobPhase (st.inflate_job_ p) b).err with _ | msg
  · constructor
    · intro ht
      constructor
      · simp [IAACompressor_Uncompress, hdec, herr, hexec, ht]
      · simp [IAACompressor_Uncompress, hdec, herr, hexec, ht]
    · intro ht
      constructor
      · simp [IAACompressor_Uncompress, hdec, herr, hexec, ht]
      · simp [IAACompressor_Uncompress, hdec, herr, hexec, ht]
  · exfalso
    simp only [IAACompressor_Uncompress] at hreach
    rw [hdec] at hreach
    simp [herr] at hreach

/-- Witness for C6: the backend accepts the payload but writes 4 bytes where
the header promised 3, surfacing `Corruption("size mismatch")`. -/
theorem uncompress_size_mismatch_guard_witness :
    (IAACompressor_Uncompress warmThreadJobState (demoBackend [.QPL_STS_OK] 4)
        .returnsBuffer .qpl_path_auto [3]).status = some (.Corruption .sizeMismatch) ∧
      (IAACompressor_Uncompress warmThreadJobState (demoBackend [.QPL_STS_OK] 4)
        .returnsBuffer .qpl_path_auto [3]).output_length = none :=
  (uncompress_size_mismatch_guard warmThreadJobState (demoBackend [.QPL_STS_OK] 4)
      .qpl_path_auto [3] 3 1 rfl (by decide) (by decide)).1 (by decide)

/-- A Compress call that finds a non-null deflate slot makes no sizing or
initialization backend call, executes on the cached job, and leaves the slot
as it was. -/
theorem compress_cached_slot_reused (st : ThreadJobState) (b : QplBackend)
    (p : QplPath) (n : Nat) (j : Bool) (hj : st.deflate_job_ p = some j) :
    (IAACompressor_Compress st b p n).called_qpl_get_job_size = false ∧
      (IAACompressor_Compress st b p n).called_qpl_init_job = false ∧
      (IAACompressor_Compress st b p n).execJobInitialized = some j ∧
      (IAACompressor_Compress st b p n).state.deflate_job_ p = some j := by
  refine ⟨?_, ?_, ?_, ?_⟩ <;> simp [IAACompressor_Compress, jobPhase, hj]

/-- An Uncompress call whose header decodes and that finds a non-null inflate
slot makes no sizing or initialization backend call and executes on the
cached job. -/
theorem uncompress_cached_slot_reused (st : ThreadJobState) (b : QplBackend)
    (p : QplPath) (input : List Nat) (m c : Nat) (j : Bool)
    (hdec : DecodeSize input = some (m, c)) (hj : st.inflate_job_ p = some j) :
    (IAACompressor_Uncompress st b .returnsBuffer p input).called_qpl_get_job_size = false ∧
      (IAACompressor_Uncompress st b .returnsBuffer p input).called_qpl_init_job = false ∧
      (IAACompressor_Uncompress st b .returnsBuffer p input).execJobInitialized = some j := by
  refine ⟨?_, ?_, ?_⟩ <;> simp [IAACompressor_Uncompress, hdec, jobPhase, hj]

/-- Claim C7: the first Compress (respectively Uncompress) call on a thread
whose cache slot for the configured path is still null invokes the backend's
sizing and initialization entry points and stores the initialized context;
the next call on the same thread and path reuses the cached context without
invoking either entry point again; Compress never touches the decompression
cache and Uncompress never touches the compression cache (the two caches are
independent and operation-specific). -/
theorem job_context_cached_and_reused
    (st : ThreadJobState) (b1 b2 b3 b4 : QplBackend) (p : QplPath) (n n2 : Nat)
    (input input2 : List Nat) (m c m2 c2 : Nat)
    (h0 : st.deflate_job_ p = none) (h0i : st.inflate_job_ p = none)
    (hg1 : b1.getJobSizeStatus = .QPL_STS_OK) (ha1 : b1.allocJobOk = true)
    (hi1 : b1.initJobStatus = .QPL_STS_OK)
    (hg3 : b3.getJobSizeStatus = .QPL_STS_OK) (ha3 : b3.allocJobOk = true)
    (hi3 : b3.initJobStatus = .QPL_STS_OK)
    (hdec : DecodeSize input = some (m, c))
    (hdec2 : DecodeSize input2 = some (m2, c2)) :
    (initialThreadJobState.deflate_job_ p = none ∧
      initialThreadJobState.inflate_job_ p = none) ∧
    ((IAACompressor_Compress st b1 p n).called_qpl_get_job_size = true ∧
      (IAACompressor_Compress st b1 p n).called_qpl_init_job = true ∧
      (IAACompressor_Compress st b1 p n).state.deflate_job_ p = some true) ∧
    ((IAACompressor_Compress (IAACompressor_Compress st b1 p n).state b2 p n2).called_qpl_get_job_size = false ∧
      (IAACompressor_Compress (IAACompressor_Compress st b1 p n).state b2 p n2).called_qpl_init_job = false ∧
      (IAACompressor_Compress (IAACompressor_Compress st b1 p n).state b2 p n2).state.deflate_job_ p = some true) ∧
    (∀ r : QplPath, (IAACompressor_Compress st b1 p n).state.inflate_job_ r = st.inflate_job_ r) ∧
    ((IAACompressor_Uncompress st b3 .returnsBuffer p input).called_qpl_get_job_size = true ∧
      (IAACompressor_Uncompress st b3 .returnsBuffer p input).called_qpl_init_job = true ∧
      (IAACompressor_Uncompress st b3 .returnsBuffer p input).state.inflate_job_ p = some true) ∧
    ((IAACompressor_Uncompress (IAACompressor_Uncompress st b3 .returnsBuffer p input).state b4 .returnsBuffer p input2).called_qpl_get_job_size = false ∧
      (IAACompressor_Uncompress (IAACompressor_Uncompress st b3 .returnsBuffer p input).state b4 .returnsBuffer p input2).called_qpl_init_job = false) ∧
    (∀ r : QplPath, (IAACompressor_Uncompress st b3 .returnsBuffer p input).state.deflate_job_ r = st.deflate_job_ r) := by
  have h1 : (IAACompressor_Compress st b1 p n).state.deflate_job_ p = some true := by
    simp [IAACompressor_Compress, jobPhase, h0, hg1, ha1, hi1]
  have h2 : (IAACompressor_Uncompress st b3 .returnsBuffer p input).state.inflate_job_ p
      = some true := by
    simp [IAACompressor_Uncompress, hdec, jobPhase, h0i, hg3, ha3, hi3]
  refine ⟨⟨rfl, rfl⟩, ?_, ?_, ?_, ?_, ?_, ?_⟩
  · refine ⟨?_, ?_, h1⟩
    · simp [IAACompressor_Compress, jobPhase, h0, hg1, ha1, hi1]
    · simp [IAACompressor_Compress, jobPhase, h0, hg1, ha1, hi1]
  · obtain ⟨hu, hv, _, hw⟩ :=
      compress_cached_slot_reused (IAACompressor_Compress st b1 p n).state b2 p n2 true h1
    exact ⟨hu, hv, hw⟩
  · intro r
    rfl
  · refine ⟨?_, ?_, h2⟩
    · simp [IAACompressor_Uncompress, hdec, jobPhase, h0i, hg3, ha3, hi3]
    · simp [IAACompressor_Uncompress, hdec, jobPhase, h0i, hg3, ha3, hi3]
  · obtain ⟨hu, hv, _⟩ :=
      uncompress_cached_slot_reused (IAACompressor_Uncompress st b3 .returnsBuffer p input).state
        b4 p input2 m2 c2 true hdec2 h2
    exact ⟨hu, hv⟩
  · intro r
    simp [IAACompressor_Uncompress, hdec]

/-- Witness for C7: the second Compress on the same thread and path does not
call `qpl_init_job` again. -/
theorem job_context_cached_and_reused_witness :
    (IAACompressor_Compress
        (IAACompressor_Compress initialThreadJobState (demoBackend [.QPL_STS_OK] 0)
          .qpl_path_auto 4).state
        (demoBackend [.QPL_STS_OK] 0) .qpl_path_auto 4).called_qpl_init_job = false :=
  (job_context_cached_and_reused initialThreadJobState (demoBackend [.QPL_STS_OK] 0)
      (demoBackend [.QPL_STS_OK] 0) (demoBackend [.QPL_STS_OK] 0)
      (demoBackend [.QPL_STS_OK] 0) .qpl_path_auto 4 4 [0] [0] 0 1 0 1
      rfl rfl rfl rfl rfl rfl rfl rfl rfl rfl).2.2.1.2.1

/-- Claim C8 (implicit): when `qpl_init_job` fails on first use for a
(thread, path) pair, the call returns the backend error but the cache slot
keeps the allocated, never-initialized job buffer; the next Compress
(respectively Uncompress) on the same thread and path therefore skips both
sizing and initialization and executes on the never-initialized context. -/
theorem init_failure_leaves_cache_non_null
    (st : ThreadJobState) (b1 b2 b3 b4 : QplBackend) (p : QplPath) (n n2 : Nat)
    (input input2 : List Nat) (m c m2 c2 : Nat)
    (h0 : st.deflate_job_ p = none) (hg1 : b1.getJobSizeStatus = .QPL_STS_OK)
    (ha1 : b1.allocJobOk = true) (hi1 : b1.initJobStatus ≠ .QPL_STS_OK)
    (h0i : st.inflate_job_ p = none) (hg3 : b3.getJobSizeStatus = .QPL_STS_OK)
    (ha3 : b3.allocJobOk = true) (hi3 : b3.initJobStatus ≠ .QPL_STS_OK)
    (hdec : DecodeSize input = some (m, c))
    (hdec2 : DecodeSize input2 = some (m2, c2)) :
    ((IAACompressor_Compress st b1 p n).status
        = some (.Corruption (.qplStatusMsg b1.initJobStatus)) ∧
      (IAACompressor_Compress st b1 p n).state.deflate_job_ p = some false) ∧
    ((IAACompressor_Compress (IAACompressor_Compress st b1 p n).state b2 p n2).called_qpl_get_job_size = false ∧
      (IAACompressor_Compress (IAACompressor_Compress st b1 p n).state b2 p n2).called_qpl_init_job = false ∧
      (IAACompressor_Compress (IAACompressor_Compress st b1 p n).state b2 p n2).execJobInitialized = some false) ∧
    ((IAACompressor_Uncompress st b3 .returnsBuffer p input).status
        = some (.Corruption (.qplStatusMsg b3.initJobStatus)) ∧
      (IAACompressor_Uncompress st b3 .returnsBuffer p input).state.inflate_job_ p = some false) ∧
    ((IAACompressor_Uncompress (IAACompressor_Uncompress st b3 .returnsBuffer p input).state b4 .returnsBuffer p input2).called_qpl_get_job_size = false ∧
      (IAACompressor_Uncompress (IAACompressor_Uncompress st b3 .returnsBuffer p input).state b4 .returnsBuffer p input2).called_qpl_init_job = false ∧
      (IAACompressor_Uncompress (IAACompressor_Uncompress st b3 .returnsBuffer p input).state b4 .returnsBuffer p input2).execJobInitialized = some false) := by
  have h1 : (IAACompressor_Compress st b1 p n).state.deflate_job_ p = some false := by
    simp [IAACompressor_Compress, jobPhase, h0, hg1, ha1, hi1]
  have h2 : (IAACompressor_Uncompress st b3 .returnsBuffer p input).state.inflate_job_ p
      = some false := by
    simp [IAACompressor_Uncompress, hdec, jobPhase, h0i, hg3, ha3, hi3]
  refine ⟨⟨?_, h1⟩, ?_, ⟨?_, h2⟩, ?_⟩
  · simp [IAACompressor_Compress, jobPhase, h0, hg1, ha1, hi1]
  · obtain ⟨hu, hv, hw, _⟩ :=
      compress_cached_slot_reused (IAACompressor_Compress st b1 p n).state b2 p n2 false h1
    exact ⟨hu, hv, hw⟩
  · simp [IAACompressor_Uncompress, hdec, jobPhase, h0i, hg3, ha3, hi3]
  · exact
      uncompress_cached_slot_reused (IAACompressor_Uncompress st b3 .returnsBuffer p input).state
        b4 p input2 m2 c2 false hdec2 h2

/-- Witness for C8: after a first Compress whose `qpl_init_job` failed with
code 50, the second Compress on the same thread and path executes on a
never-initialized job without re-attempting initialization. -/
theorem init_failure_leaves_cache_non_null_witness :
    (IAACompressor_Compress
        (IAACompressor_Compress initialThreadJobState (demoInitFailBackend 50 [] 0)
          .qpl_path_hardware 4).state
        (demoBackend [.QPL_STS_OK] 0) .qpl_path_hardware 4).called_qpl_init_job = false ∧
      (IAACompressor_Compress
        (IAACompressor_Compress initialThreadJobState (demoInitFailBackend 50 [] 0)
          .qpl_path_hardware 4).state
        (demoBackend [.QPL_STS_OK] 0) .qpl_path_hardware 4).execJobInitialized = some false :=
  ⟨(init_failure_leaves_cache_non_null initialThreadJobState (demoInitFailBackend 50 [] 0)
      (demoBackend [.QPL_STS_OK] 0) (demoInitFailBackend 50 [] 0) (demoBackend [.QPL_STS_OK] 0)
      .qpl_path_hardware 4 4 [0] [0] 0 1 0 1
      rfl rfl rfl (by decide) rfl rfl rfl (by decide) rfl rfl).2.1.2.1,
    (init_failure_leaves_cache_non_null initialThreadJobState (demoInitFailBackend 50 [] 0)
      (demoBackend [.QPL_STS_OK] 0) (demoInitFailBackend 50 [] 0) (demoBackend [.QPL_STS_OK] 0)
      .qpl_path_hardware 4 4 [0] [0] 0 1 0 1
      rfl rfl rfl (by decide) rfl rfl rfl (by decide) rfl rfl).2.1.2.2⟩

/-- Claim C9 (implicit): once the length header has decoded and the allocator
has returned a buffer, `*output` is already set to that buffer and the core
performs no deallocation; on a backend execution failure or a size mismatch
the error is reported while the buffer stays with the caller as
allocated-but-invalid. -/
theorem failure_after_alloc_keeps_buffer (st : ThreadJobState) (b : QplBackend)
    (p : QplPath) (input : List Nat) (m c : Nat)
    (hdec : DecodeSize input = some (m, c))
    (hreach : (IAACompressor_Uncompress st b .returnsBuffer p input).execJobInitialized.isSome) :
    (IAACompressor_Uncompress st b .returnsBuffer p input).outputPtrSet = true ∧
      (IAACompressor_Uncompress st b .returnsBuffer p input).freeCalled = false ∧
      (∀ s : QplStatus, firstNonBusy b.execStatuses = some s → s ≠ .QPL_STS_OK →
        (IAACompressor_Uncompress st b .returnsBuffer p input).status
          = some (.Corruption (.qplStatusMsg s))) ∧
      (firstNonBusy b.execStatuses = some .QPL_STS_OK → b.totalOut ≠ m →
        (IAACompressor_Uncompress st b .returnsBuffer p input).status
          = some (.Corruption .sizeMismatch)) := by
  rcases herr : (jobPhase (st.inflate_job_ p) b).err with _ | msg
  · refine ⟨?_, ?_, ?_, ?_⟩
    · simp [IAACompressor_Uncompress, hdec]
    · simp [IAACompressor_Uncompress, hdec]
    · intro s hs hsok
      simp [IAACompressor_Uncompress, hdec, herr, hs, hsok]
    · intro hs ht
      simp [IAACompressor_Uncompress, hdec, herr, hs, ht]
  · exfalso
    simp only [IAACompressor_Uncompress] at hreach
    rw [hdec] at hreach
    simp [herr] at hreach

/-- Witness for C9: a backend execution failure with code 99 after a
successful allocation leaves the output pointer set and nothing freed. -/
theorem failure_after_alloc_keeps_buffer_witness :
    (IAACompressor_Uncompress warmThreadJobState (demoBackend [.errCode 99] 0)
        .returnsBuffer .qpl_path_auto [3]).outputPtrSet = true ∧
      (IAACompressor_Uncompress warmThreadJobState (demoBackend [.errCode 99] 0)
        .returnsBuffer .qpl_path_auto [3]).freeCalled = false ∧
      (IAACompressor_Uncompress warmThreadJobState (demoBackend [.errCode 99] 0)
        .returnsBuffer .qpl_path_auto [3]).status
        = some (.Corruption (.qplStatusMsg (.errCode 99))) :=
  ⟨(failure_after_alloc_keeps_buffer warmThreadJobState (demoBackend [.errCode 99] 0)
      .qpl_path_auto [3] 3 1 rfl (by decide)).1,
    (failure_after_alloc_keeps_buffer warmThreadJobState (demoBackend [.errCode 99] 0)
      .qpl_path_auto [3] 3 1 rfl (by decide)).2.1,
    (failure_after_alloc_keeps_buffer warmThreadJobState (demoBackend [.errCode 99] 0)
      .qpl_path_auto [3] 3 1 rfl (by decide)).2.2.1 (.errCode 99) (by decide) (by decide)⟩

/-- Claim C10 (implicit): for every input whose length is at least `2^32`,
Compress neither fails nor clamps the length header; the header is the
varint32 of the length reduced modulo `2^32` (the `size_t` length is
silently truncated to `uint32_t` on the way into the encoder, so it decodes
to a value different from the input length), while only the output-buffer
capacity is clamped to `2^32 − 1`. -/
theorem oversized_length_truncated_not_clamped (st : ThreadJobState) (b : QplBackend)
    (p : QplPath) (n : Nat) (h32 : 2 ^ 32 ≤ n)
    (hfit : (EncodeSize n).length + n + 5 * ((n + 65534) / 65535) < 2 ^ 64) :
    (IAACompressor_Compress st b p n).outputHeader = EncodeSize n ∧
      DecodeSize (IAACompressor_Compress st b p n).outputHeader
        = some (n % 2 ^ 32, (IAACompressor_Compress st b p n).outputHeader.length) ∧
      n % 2 ^ 32 ≠ n ∧
      (IAACompressor_Compress st b p n).outputCapacity = 2 ^ 32 - 1 := by
  have hm : n % 2 ^ 32 < 2 ^ 32 := Nat.mod_lt _ (by norm_num)
  have hpow : (2 : Nat) ^ 32 ≤ 128 ^ 5 := by norm_num
  have h5 : n % 2 ^ 32 < 128 ^ 5 := by omega
  refine ⟨rfl, ?_, by omega, ?_⟩
  · show DecodeSize (EncodeSize n) = some (n % 2 ^ 32, (EncodeSize n).length)
    unfold DecodeSize EncodeSize PutVarint32
    have h := getVarint32Loop_putVarint32Aux 5 (n % 2 ^ 32) [] 0 0 0 h5
    simpa [PutVarint32] using h
  · have hcap : (IAACompressor_Compress st b p n).outputCapacity
        = compressOutputLength (EncodeSize n).length n := rfl
    rw [hcap, compressOutputLength_eq_min (EncodeSize n).length n hfit]
    exact min_eq_right (by omega)

/-- Witness for C10 at `n = 2^32`: the header encodes 0, not `2^32 − 1`, and
the capacity is clamped. -/
theorem oversized_length_truncated_not_clamped_witness :
    DecodeSize (IAACompressor_Compress initialThreadJobState (demoBackend [.QPL_STS_OK] 0)
        .qpl_path_auto 4294967296).outputHeader
      = some (4294967296 % 2 ^ 32,
          (IAACompressor_Compress initialThreadJobState (demoBackend [.QPL_STS_OK] 0)
            .qpl_path_auto 4294967296).outputHeader.length) ∧
    (IAACompressor_Compress initialThreadJobState (demoBackend [.QPL_STS_OK] 0)
        .qpl_path_auto 4294967296).outputCapacity = 2 ^ 32 - 1 :=
  ⟨(oversized_length_truncated_not_clamped initialThreadJobState (demoBackend [.QPL_STS_OK] 0)
      .qpl_path_auto 4294967296 (by decide) (by decide)).2.1,
    (oversized_length_truncated_not_clamped initialThreadJobState (demoBackend [.QPL_STS_OK] 0)
      .qpl_path_auto 4294967296 (by decide) (by decide)).2.2.2⟩

end IAAPlugin
